import Mathlib

/-!
Verification of the orientation-estimation and pose-matching core of a
camera-viewfinder application.  Every definition below is a shallow
embedding of one function (or one inlined computation) of the TypeScript
source; exact arithmetic is used: rationals where the source only adds,
subtracts, multiplies, divides and compares, reals where the source calls
sqrt or trigonometric functions.
-/

namespace Dra

/-- A 3-component value: a raw or normalized sensor reading. -/
structure V3 (α : Type) where
  x : α
  y : α
  z : α
deriving DecidableEq

/-- A quaternion record with components x, y, z, w. -/
structure Quat (α : Type) where
  x : α
  y : α
  z : α
  w : α
deriving DecidableEq

/-- A latitude/longitude pair, as produced by the location provider. -/
structure LocationData where
  latitude : ℚ
  longitude : ℚ
deriving DecidableEq

/-! ## Pose quantizer, azimuth-only variant (part_001, numeric variant) -/

/-- Embeds the final step of the azimuth-only `calculateSphereBlock`
(part_001, numeric variant, lines 254-264): the segment index of a
normalized azimuth in degrees, `Math.floor(degrees / (360 / segments))`. -/
def calculateSphereBlock (segments : ℚ) (degrees : ℚ) : ℤ :=
  Int.floor (degrees / (360 / segments))

/-! ## Angular difference (part_003) and the plain-difference variant (part_002) -/

/-- Embeds `angleDifference` (part_003, lines 257-263): absolute difference,
folded to `360 - difference` when it exceeds 180. -/
def angleDifference (angle1 angle2 : ℚ) : ℚ :=
  let difference := |angle1 - angle2|
  if 180 < difference then 360 - difference else difference

/-- Embeds the `directionDifference` computation of `takePhoto`
(part_002, line 104): a plain absolute difference of headings, with no
circular fold. -/
def part002DirectionDifference (currentDirection savedDirection : ℚ) : ℚ :=
  |currentDirection - savedDirection|

/-- The circular azimuth difference in the form the specification states it:
`min(|a-b|, 360-|a-b|)`. -/
def circularDifference (a b : ℚ) : ℚ :=
  min |a - b| (360 - |a - b|)

/-! ## Location check (part_003), matcher decisions (part_002, index.tsx) -/

/-- Embeds the `latitude` entry of the `TOLERANCE` record (part_003, line 26). -/
def TOLERANCE_latitude : ℚ := 1/10000

/-- Embeds the `longitude` entry of the `TOLERANCE` record (part_003, line 27). -/
def TOLERANCE_longitude : ℚ := 1/10000

/-- Embeds `compareLocation` (part_003, lines 244-255): each coordinate
difference within its tolerance. -/
def compareLocation (current stored : LocationData) : Prop :=
  |current.latitude - stored.latitude| ≤ TOLERANCE_latitude ∧
  |current.longitude - stored.longitude| ≤ TOLERANCE_longitude

instance (current stored : LocationData) : Decidable (compareLocation current stored) := by
  unfold compareLocation
  infer_instance

/-- Embeds `LOCATION_TOLERANCE` (part_002 line 8 and index.tsx line 9). -/
def LOCATION_TOLERANCE : ℚ := 1/10000

/-- Embeds `DIRECTION_TOLERANCE` (part_002, line 9). -/
def DIRECTION_TOLERANCE : ℚ := 15

/-- Embeds `ORIENTATION_TOLERANCE` (index.tsx, line 10). -/
def ORIENTATION_TOLERANCE : ℚ := 1/10

/-- The result a `takePhoto` decision communicates to the user: whether the
pose matched, and which dimensions mismatched otherwise. -/
structure MatchResult where
  ok : Bool
  mismatchReasons : List String
deriving DecidableEq

/-- Embeds the `isLocationMatched` computation of `takePhoto`
(part_002 lines 106-108, identical in index.tsx lines 155-157). -/
def isLocationMatched (currentLocation savedLocation : LocationData) : Prop :=
  |currentLocation.latitude - savedLocation.latitude| ≤ LOCATION_TOLERANCE ∧
  |currentLocation.longitude - savedLocation.longitude| ≤ LOCATION_TOLERANCE

instance (cl sl : LocationData) : Decidable (isLocationMatched cl sl) := by
  unfold isLocationMatched
  infer_instance

/-- Embeds the location part of the `takePhoto` gate of the part_000
variant (lines 83-85): exact equality of both coordinates (`===`), with no
tolerance. -/
def part000IsLocationMatched (currentLocation savedLocation : LocationData) : Prop :=
  currentLocation.latitude = savedLocation.latitude ∧
  currentLocation.longitude = savedLocation.longitude

instance (cl sl : LocationData) : Decidable (part000IsLocationMatched cl sl) := by
  unfold part000IsLocationMatched
  infer_instance

/-- Embeds the `isDirectionMatched` computation of `takePhoto`
(part_002, line 110): the plain absolute difference against the tolerance. -/
def isDirectionMatched (currentDirection savedDirection : ℚ) : Prop :=
  part002DirectionDifference currentDirection savedDirection ≤ DIRECTION_TOLERANCE

instance (cd sd : ℚ) : Decidable (isDirectionMatched cd sd) := by
  unfold isDirectionMatched
  infer_instance

/-- Embeds the decision and mismatch-reason logic of `takePhoto`
(part_002, lines 112-120): photo allowed when both gates pass, otherwise a
reason list naming each failed gate, `location` pushed before `direction`. -/
def part002TakePhoto (currentLocation savedLocation : LocationData)
    (currentDirection savedDirection : ℚ) : MatchResult :=
  if isLocationMatched currentLocation savedLocation ∧
      isDirectionMatched currentDirection savedDirection then
    { ok := true, mismatchReasons := [] }
  else
    { ok := false,
      mismatchReasons :=
        (if isLocationMatched currentLocation savedLocation then [] else ["location"]) ++
        (if isDirectionMatched currentDirection savedDirection then [] else ["direction"]) }

/-- Embeds `THREE.Quaternion.dot`, as called at index.tsx line 160. -/
def quatDot (a b : Quat ℚ) : ℚ :=
  a.x * b.x + a.y * b.y + a.z * b.z + a.w * b.w

/-- Componentwise negation of a quaternion (the antipodal representative of
the same physical orientation). -/
def quatNeg (q : Quat ℚ) : Quat ℚ :=
  ⟨-q.x, -q.y, -q.z, -q.w⟩

/-- Embeds the `isOrientationMatched` computation of `takePhoto`
(index.tsx, lines 159-161): `Math.abs(1 - currentOrientation.dot(saved))`
within the tolerance, AND sphere-block equality. -/
def isOrientationMatched (currentOrientation savedOrientation : Quat ℚ)
    (currentSphereBlock savedSphereBlock : ℤ) : Prop :=
  |1 - quatDot currentOrientation savedOrientation| ≤ ORIENTATION_TOLERANCE ∧
  currentSphereBlock = savedSphereBlock

instance (co so : Quat ℚ) (cb sb : ℤ) : Decidable (isOrientationMatched co so cb sb) := by
  unfold isOrientationMatched
  infer_instance

/-- The quaternion-dot policy as the specification words it:
`1 - |dot(currentQ, referenceQ)|` within the tolerance, AND sphere-block
equality.  Kept separate so it can be compared against the code's
`isOrientationMatched`. -/
def specOrientationMatched (currentOrientation savedOrientation : Quat ℚ)
    (currentSphereBlock savedSphereBlock : ℤ) : Prop :=
  1 - |quatDot currentOrientation savedOrientation| ≤ ORIENTATION_TOLERANCE ∧
  currentSphereBlock = savedSphereBlock

/-- Embeds the decision and mismatch-reason logic of `takePhoto`
(index.tsx, lines 151-171): location gate and orientation gate, with a
reason list naming each failed gate, `location` pushed before `orientation`. -/
def indexTakePhoto (currentLocation savedLocation : LocationData)
    (currentOrientation savedOrientation : Quat ℚ)
    (currentSphereBlock savedSphereBlock : ℤ) : MatchResult :=
  if isLocationMatched currentLocation savedLocation ∧
      isOrientationMatched currentOrientation savedOrientation
        currentSphereBlock savedSphereBlock then
    { ok := true, mismatchReasons := [] }
  else
    { ok := false,
      mismatchReasons :=
        (if isLocationMatched currentLocation savedLocation then [] else ["location"]) ++
        (if isOrientationMatched currentOrientation savedOrientation
            currentSphereBlock savedSphereBlock then [] else ["orientation"]) }

/-! ## Smoothing windows (part_001 and part_002) and the moving average -/

/-- JS `Array.prototype.slice` called with a negative index `-n`: the last
`n` elements, except that `slice(-0)` is `slice(0)`, the whole array. -/
def jsSliceLast {α : Type} (n : ℕ) (l : List α) : List α :=
  if n = 0 then l else l.drop (l.length - n)

/-- Embeds `addMagnetometerReading` (part_001, lines 21-29): append the new
reading, then `slice(-MOVING_AVERAGE_WINDOW)` when past capacity. -/
def addMagnetometerReading {α : Type} (window : ℕ) (prevReadings : List α)
    (reading : α) : List α :=
  let newReadings := prevReadings ++ [reading]
  if window < newReadings.length then jsSliceLast window newReadings else newReadings

/-- Embeds the `directionReadings` update inside
`calculateTiltCompensatedDirection` (part_002, lines 70-73): push the new
heading, then `shift()` the oldest when past capacity. -/
def pushDirectionReading {α : Type} (window : ℕ) (readings : List α)
    (heading : α) : List α :=
  let pushed := readings ++ [heading]
  if window < pushed.length then pushed.tail else pushed

/-- Embeds `getAverageReading` (part_001, lines 31-38): `[0,0,0]` for an
empty window, otherwise the componentwise `reduce` sum of the window
divided by its length. -/
def getAverageReading (magnetometerReadings : List (V3 ℚ)) : V3 ℚ :=
  if magnetometerReadings.length = 0 then ⟨0, 0, 0⟩
  else
    let sum := magnetometerReadings.foldl
      (fun acc reading => ⟨acc.x + reading.x, acc.y + reading.y, acc.z + reading.z⟩)
      (⟨0, 0, 0⟩ : V3 ℚ)
    ⟨sum.x / magnetometerReadings.length, sum.y / magnetometerReadings.length,
      sum.z / magnetometerReadings.length⟩

/-! ## Orientation computation over the reals (part_003 and index.tsx) -/

/-- Euclidean norm of a 3-vector, as computed inside `computeOrientation`
(part_003, line 117): `Math.sqrt(x*x + y*y + z*z)`. -/
noncomputable def vnorm (v : V3 ℝ) : ℝ :=
  Real.sqrt (v.x * v.x + v.y * v.y + v.z * v.z)

/-- Embeds the accelerometer normalization inside `computeOrientation`
(part_003, lines 116-120): each component divided by the vector norm, with
no guard on a zero norm. -/
noncomputable def normalizeVec (v : V3 ℝ) : V3 ℝ :=
  ⟨v.x / vnorm v, v.y / vnorm v, v.z / vnorm v⟩

/-- Modelled from the spec: the zero-safe denominator the specification
prescribes for `normalize`, the norm floored by the epsilon substitute
1e-6.  No such guard exists in `computeOrientation` (part_003). -/
noncomputable def specEpsDenominator (v : V3 ℝ) : ℝ :=
  max (vnorm v) (1 / 1000000)

/-- Embeds `UPDATE_INTERVAL` (index.tsx, line 12). -/
def UPDATE_INTERVAL : ℚ := 100

/-- Embeds the Euler-angle argument of the gyro delta rotation in
`calculateDeviceOrientation` (index.tsx, line 107): each angular-velocity
component times the fixed `UPDATE_INTERVAL / 1000`; the sample timestamps
never enter the computation. -/
def gyroDeltaEuler (g : V3 ℚ) : V3 ℚ :=
  ⟨g.x * UPDATE_INTERVAL / 1000, g.y * UPDATE_INTERVAL / 1000,
    g.z * UPDATE_INTERVAL / 1000⟩

/-- Modelled from the spec: the delta-rotation Euler angles with `dt`
computed from consecutive gyroscope sample timestamps (milliseconds) and a
`dt <= 0` step treated as a no-op (zero rotation).  The repository code has
no such path. -/
def specGyroDeltaEuler (g : V3 ℚ) (tCurrentMillis tPreviousMillis : ℚ) : V3 ℚ :=
  let dt := (tCurrentMillis - tPreviousMillis) / 1000
  if dt ≤ 0 then ⟨0, 0, 0⟩ else ⟨g.x * dt, g.y * dt, g.z * dt⟩

/-- Cast a rational vector to the real vector it denotes. -/
def v3Cast (v : V3 ℚ) : V3 ℝ :=
  ⟨(v.x : ℝ), (v.y : ℝ), (v.z : ℝ)⟩

/-- Embeds `THREE.Quaternion.setFromEuler` for the default XYZ order, as
called at index.tsx line 107. -/
noncomputable def quatFromEulerXYZ (e : V3 ℝ) : Quat ℝ :=
  let c1 := Real.cos (e.x / 2)
  let c2 := Real.cos (e.y / 2)
  let c3 := Real.cos (e.z / 2)
  let s1 := Real.sin (e.x / 2)
  let s2 := Real.sin (e.y / 2)
  let s3 := Real.sin (e.z / 2)
  ⟨s1 * c2 * c3 + c1 * s2 * s3,
    c1 * s2 * c3 - s1 * c2 * s3,
    c1 * c2 * s3 + s1 * s2 * c3,
    c1 * c2 * c3 - s1 * s2 * s3⟩

/-- Embeds `THREE.Quaternion.multiply` (the Hamilton product `this * q`),
as called at index.tsx line 108. -/
noncomputable def quatMul (a b : Quat ℝ) : Quat ℝ :=
  ⟨a.x * b.w + a.w * b.x + a.y * b.z - a.z * b.y,
    a.y * b.w + a.w * b.y + a.z * b.x - a.x * b.z,
    a.z * b.w + a.w * b.z + a.x * b.y - a.y * b.x,
    a.w * b.w - a.x * b.x - a.y * b.y - a.z * b.z⟩

/-- The identity quaternion, `new THREE.Quaternion()`. -/
noncomputable def idQuat : Quat ℝ :=
  ⟨0, 0, 0, 1⟩

/-! ## Labelled azimuth-by-elevation quantizer (part_001, labelled variant) -/

/-- `Math.atan2(y, x)`, modelled as the argument of the complex number
`x + y*i` (range `(-pi, pi]`, with `atan2(0, 0) = 0` as in JS). -/
noncomputable def atan2 (y x : ℝ) : ℝ :=
  Complex.arg ⟨x, y⟩

/-- JS remainder `a % b` for nonnegative `a` and positive `b` (the only use
here is `(theta_degrees + 360) % 360` with `theta_degrees` in
`(-180, 180]`, where truncated and floored remainder agree). -/
noncomputable def jsMod (a b : ℝ) : ℝ :=
  a - b * Int.floor (a / b)

/-- Embeds `SPHERE_SEGMENTS` (part_001, labelled variant, line 7). -/
def SPHERE_SEGMENTS : ℕ := 4

/-- The two-character label built by the labelled `calculateSphereBlock`
(part_001): `String.fromCharCode(65 + horizontalIndex)` followed by
`verticalIndex + 1`, modelled as the character code and the number. -/
structure SphereBlockLabel where
  letterCode : ℤ
  number : ℤ
deriving DecidableEq

/-- Embeds `calculateSphereBlock` (part_001, labelled variant, lines
102-122): azimuth and elevation from `atan2`, converted to degrees and
normalized, bucketed by floor into a 4 x 4 grid, encoded letter + number. -/
noncomputable def calculateSphereBlockLabelled (x y z : ℝ) : SphereBlockLabel :=
  let theta := atan2 y x
  let phi := atan2 z (Real.sqrt (x * x + y * y))
  let azimuth := jsMod (theta * 180 / Real.pi + 360) 360
  let elevation := phi * 180 / Real.pi + 90
  let horizontalIndex := Int.floor (azimuth / (360 / (SPHERE_SEGMENTS : ℝ)))
  let verticalIndex := Int.floor (elevation / (180 / (SPHERE_SEGMENTS : ℝ)))
  ⟨65 + horizontalIndex, verticalIndex + 1⟩

end Dra

namespace Dra

/-! ## Helper lemmas -/

/-- Folding the part_001 push over any input list, starting from the empty
window, leaves exactly the last `window` values. -/
theorem foldl_addMagnetometerReading {α : Type} (window : ℕ) (hw : 0 < window)
    (vs : List α) :
    List.foldl (addMagnetometerReading window) [] vs = vs.drop (vs.length - window) := by
  induction vs using List.reverseRecOn with
  | nil => simp
  | append_singleton vs v ih =>
    rw [List.foldl_append, List.foldl_cons, List.foldl_nil, ih]
    unfold addMagnetometerReading jsSliceLast
    have hsplit : vs.drop (vs.length - window) ++ [v] =
        (vs ++ [v]).drop (vs.length - window) := by
      rw [List.drop_append_of_le_length (Nat.sub_le _ _)]
    by_cases hge : window ≤ vs.length
    · have hlen : (vs.drop (vs.length - window) ++ [v]).length = window + 1 := by
        simp [Nat.sub_sub_self hge]
      rw [if_pos (by omega), if_neg (by omega), hlen, hsplit, List.drop_drop]
      congr 1
      simp
      omega
    · have hlen : (vs.drop (vs.length - window) ++ [v]).length = vs.length + 1 := by
        simp [Nat.sub_eq_zero_of_le (le_of_not_le hge)]
      rw [if_neg (by omega), hsplit]
      congr 1
      simp
      omega

/-- Folding the part_002 push over any input list, starting from the empty
window, leaves exactly the last `window` values. -/
theorem foldl_pushDirectionReading {α : Type} (window : ℕ) (vs : List α) :
    List.foldl (pushDirectionReading window) [] vs = vs.drop (vs.length - window) := by
  induction vs using List.reverseRecOn with
  | nil => simp
  | append_singleton vs v ih =>
    rw [List.foldl_append, List.foldl_cons, List.foldl_nil, ih]
    unfold pushDirectionReading
    have hsplit : vs.drop (vs.length - window) ++ [v] =
        (vs ++ [v]).drop (vs.length - window) := by
      rw [List.drop_append_of_le_length (Nat.sub_le _ _)]
    by_cases hge : window ≤ vs.length
    · have hlen : (vs.drop (vs.length - window) ++ [v]).length = window + 1 := by
        simp [Nat.sub_sub_self hge]
      rw [if_pos (by omega), hsplit, ← List.drop_one, List.drop_drop]
      congr 1
      simp
      omega
    · have hlen : (vs.drop (vs.length - window) ++ [v]).length = vs.length + 1 := by
        simp [Nat.sub_eq_zero_of_le (le_of_not_le hge)]
      rw [if_neg (by omega), hsplit]
      congr 1
      simp
      omega

/-- The componentwise `reduce` of `getAverageReading` computes the three
componentwise sums. -/
theorem foldl_sum_components (l : List (V3 ℚ)) (init : V3 ℚ) :
    List.foldl
      (fun acc reading =>
        V3.mk (acc.x + reading.x) (acc.y + reading.y) (acc.z + reading.z)) init l =
      ⟨init.x + (l.map V3.x).sum, init.y + (l.map V3.y).sum, init.z + (l.map V3.z).sum⟩ := by
  induction l generalizing init with
  | nil => simp
  | cons a l ih =>
    rw [List.foldl_cons, ih]
    simp only [List.map_cons, List.sum_cons, V3.mk.injEq]
    refine ⟨by ring, by ring, by ring⟩

end Dra

namespace Dra

/-! ## Claim theorems -/

/-- C1: the azimuth-only pose quantizer maps a normalized azimuth in
[0, 360) to block index floor(azimuth / (360 / segments)); with 16 segments
the index is always in [0, 15], azimuth 0 maps to block 0, azimuth 22.5
(one full slice width) maps to block 1, and every boundary angle k * 22.5
resolves by floor to the slice whose lower edge it is. -/
theorem claim_C1_azimuth_quantizer (az : ℚ) (h0 : 0 ≤ az) (h1 : az < 360) :
    (0 ≤ calculateSphereBlock 16 az ∧ calculateSphereBlock 16 az ≤ 15) ∧
    calculateSphereBlock 16 0 = 0 ∧
    calculateSphereBlock 16 (45/2) = 1 ∧
    ∀ k : ℕ, k < 16 → calculateSphereBlock 16 ((k : ℚ) * (45/2)) = k := by
  unfold calculateSphereBlock
  refine ⟨⟨Int.floor_nonneg.mpr (div_nonneg h0 (by norm_num)), ?_⟩, ?_, ?_, ?_⟩
  · have hlt : az / (360 / 16) < ((16 : ℤ) : ℚ) := by
      rw [div_lt_iff₀ (by norm_num)]
      push_cast
      linarith
    have hfl := Int.floor_lt.mpr hlt
    omega
  · norm_num
  · norm_num [Int.floor_eq_iff]
  · intro k hk
    rw [show (360 : ℚ) / 16 = 45/2 by norm_num,
      mul_div_cancel_right₀ _ (by norm_num : (45/2 : ℚ) ≠ 0), Int.floor_natCast]

/-- C1 witness: the range bound instantiated at azimuth 359. -/
theorem claim_C1_azimuth_quantizer_case :
    ((0 : ℚ) ≤ 359 ∧ (359 : ℚ) < 360) ∧
    ((0 ≤ calculateSphereBlock 16 359 ∧ calculateSphereBlock 16 359 ≤ 15) ∧
      calculateSphereBlock 16 0 = 0 ∧
      calculateSphereBlock 16 (45/2) = 1 ∧
      ∀ k : ℕ, k < 16 → calculateSphereBlock 16 ((k : ℚ) * (45/2)) = k) :=
  ⟨⟨by norm_num, by norm_num⟩,
    claim_C1_azimuth_quantizer 359 (by norm_num) (by norm_num)⟩

/-- C2 counterexample: the part_002 matcher variant compares azimuths with a
plain absolute difference; at (350, 10) it computes 340, not the circular
20, so the circular-difference policy does not hold for every matcher
variant that compares azimuths.  At (355, 5) that variant even rejects a
pair whose circular difference is within tolerance. -/
theorem claim_C2_plain_difference_case :
    part002DirectionDifference 350 10 = 340 ∧
    circularDifference 350 10 = 20 ∧
    part002DirectionDifference 350 10 ≠ circularDifference 350 10 ∧
    ¬ isDirectionMatched 355 5 ∧
    circularDifference 355 5 ≤ DIRECTION_TOLERANCE := by
  have h1 : part002DirectionDifference 350 10 = 340 := by
    norm_num [part002DirectionDifference, abs_of_nonneg]
  have h2 : circularDifference 350 10 = 20 := by
    norm_num [circularDifference, abs_of_nonneg, min_def]
  refine ⟨h1, h2, by rw [h1, h2]; norm_num, ?_, ?_⟩
  · norm_num [isDirectionMatched, part002DirectionDifference, DIRECTION_TOLERANCE, abs_le]
  · norm_num [circularDifference, DIRECTION_TOLERANCE, abs_of_nonneg, min_def]

/-- C2 (amended): part_003's angleDifference does implement the circular
difference min(|a-b|, 360-|a-b|) for normalized azimuths, is at most 180
there, and maps (350, 10) to 20; but the part_000/part_002 matcher variants
compare azimuths by plain absolute difference instead. -/
theorem claim_C2_circular_difference (a b : ℚ)
    (ha0 : 0 ≤ a) (ha1 : a < 360) (hb0 : 0 ≤ b) (hb1 : b < 360) :
    angleDifference a b = circularDifference a b ∧
    angleDifference a b ≤ 180 ∧
    angleDifference 350 10 = 20 := by
  have h20 : angleDifference 350 10 = 20 := by
    norm_num [angleDifference, abs_of_nonneg]
  have hmain : angleDifference a b = circularDifference a b ∧ angleDifference a b ≤ 180 := by
    unfold angleDifference circularDifference
    by_cases h : 180 < |a - b|
    · rw [if_pos h]
      exact ⟨(min_eq_right (by linarith)).symm, by linarith⟩
    · rw [if_neg h]
      exact ⟨(min_eq_left (by linarith)).symm, by linarith⟩
  exact ⟨hmain.1, hmain.2, h20⟩

/-- C2 witness: the amended claim instantiated at azimuths 350 and 10. -/
theorem claim_C2_circular_difference_case :
    ((0 : ℚ) ≤ 350 ∧ (350 : ℚ) < 360 ∧ (0 : ℚ) ≤ 10 ∧ (10 : ℚ) < 360) ∧
    (angleDifference 350 10 = circularDifference 350 10 ∧
      angleDifference 350 10 ≤ 180 ∧
      angleDifference 350 10 = 20) :=
  ⟨⟨by norm_num, by norm_num, by norm_num, by norm_num⟩,
    claim_C2_circular_difference 350 10 (by norm_num) (by norm_num) (by norm_num)
      (by norm_num)⟩

/-- C3 counterexample: at the spec's passing scenario - current
(37.00005, -122.00003) against reference (37, -122) - both per-axis
differences are within the 0.0001 tolerance, yet the part_000 variant's
location check (exact coordinate equality) rejects the pair, so the
claimed iff, with its `not exact equality` reading, is false for that
cited matcher variant. -/
theorem claim_C3_exact_equality_case :
    compareLocation ⟨37.00005, -122.00003⟩ ⟨37, -122⟩ ∧
    ¬ part000IsLocationMatched ⟨37.00005, -122.00003⟩ ⟨37, -122⟩ := by
  constructor
  · norm_num [compareLocation, TOLERANCE_latitude, TOLERANCE_longitude, abs_le]
  · intro hexact
    have hlat := hexact.1
    norm_num [part000IsLocationMatched] at hlat

/-- C3 (amended): the tolerance-based location checks - part_003's
compareLocation and the part_002/index.tsx isLocationMatched - pass iff
the latitude difference and the longitude difference are each within
0.0001 (independent per-axis bounds, not great-circle distance and not
exact equality), and the spec's concrete scenarios behave as stated there,
the failing one reporting reason location; the part_000 takePhoto variant
instead compares coordinates by exact equality, rejecting the scenario the
claim says passes. -/
theorem claim_C3_location_check :
    (∀ current stored : LocationData,
      compareLocation current stored ↔
        |current.latitude - stored.latitude| ≤ 1/10000 ∧
        |current.longitude - stored.longitude| ≤ 1/10000) ∧
    compareLocation ⟨37.00005, -122.00003⟩ ⟨37, -122⟩ ∧
    (37.00005 : ℚ) ≠ 37 ∧
    ¬ compareLocation ⟨37.001, -122⟩ ⟨37, -122⟩ ∧
    (part002TakePhoto ⟨37.00005, -122.00003⟩ ⟨37, -122⟩ 93 90).ok = true ∧
    (part002TakePhoto ⟨37.001, -122⟩ ⟨37, -122⟩ 90 90).ok = false ∧
    (part002TakePhoto ⟨37.001, -122⟩ ⟨37, -122⟩ 90 90).mismatchReasons = ["location"] ∧
    (∀ current stored : LocationData,
      part000IsLocationMatched current stored ↔
        current.latitude = stored.latitude ∧ current.longitude = stored.longitude) ∧
    ¬ part000IsLocationMatched ⟨37.00005, -122.00003⟩ ⟨37, -122⟩ ∧
    part000IsLocationMatched ⟨37, -122⟩ ⟨37, -122⟩ := by
  have hloc : isLocationMatched ⟨37.00005, -122.00003⟩ ⟨37, -122⟩ := by
    norm_num [isLocationMatched, LOCATION_TOLERANCE, abs_le]
  have hdir : isDirectionMatched 93 90 := by
    norm_num [isDirectionMatched, part002DirectionDifference, DIRECTION_TOLERANCE, abs_le]
  have hnloc : ¬ isLocationMatched ⟨37.001, -122⟩ ⟨37, -122⟩ := by
    norm_num [isLocationMatched, LOCATION_TOLERANCE, abs_le]
  have hdir2 : isDirectionMatched 90 90 := by
    norm_num [isDirectionMatched, part002DirectionDifference, DIRECTION_TOLERANCE, abs_le]
  refine ⟨?_, ?_, by norm_num, ?_, ?_, ?_, ?_, ?_, ?_, ?_⟩
  · intro current stored
    unfold compareLocation TOLERANCE_latitude TOLERANCE_longitude
    exact Iff.rfl
  · norm_num [compareLocation, TOLERANCE_latitude, TOLERANCE_longitude, abs_le]
  · norm_num [compareLocation, TOLERANCE_latitude, TOLERANCE_longitude, abs_le]
  · unfold part002TakePhoto
    rw [if_pos ⟨hloc, hdir⟩]
  · unfold part002TakePhoto
    rw [if_neg (fun hand => hnloc hand.1)]
  · unfold part002TakePhoto
    rw [if_neg (fun hand => hnloc hand.1), if_neg hnloc, if_pos hdir2]
    rfl
  · intro current stored
    unfold part000IsLocationMatched
    exact Iff.rfl
  · intro hexact
    have hlat := hexact.1
    norm_num [part000IsLocationMatched] at hlat
  · exact ⟨rfl, rfl⟩

/-- C4 counterexample: at currentQ = -referenceQ (dot = -1, the same
physical orientation, equal sphere blocks) the claimed 1 - |dot| policy
passes, but the code's |1 - dot| check fails, so the claimed iff is false. -/
theorem claim_C4_negated_quaternion_case :
    quatDot ⟨0, 0, 0, -1⟩ ⟨0, 0, 0, 1⟩ = -1 ∧
    specOrientationMatched ⟨0, 0, 0, -1⟩ ⟨0, 0, 0, 1⟩ 0 0 ∧
    ¬ isOrientationMatched ⟨0, 0, 0, -1⟩ ⟨0, 0, 0, 1⟩ 0 0 := by
  refine ⟨by norm_num [quatDot], ⟨?_, rfl⟩, ?_⟩
  · norm_num [specOrientationMatched, quatDot, ORIENTATION_TOLERANCE]
  · intro hmat
    have h1 := hmat.1
    norm_num [quatDot, ORIENTATION_TOLERANCE, abs_le] at h1

/-- C4 (amended): under the code's quaternion-dot policy the orientation
gate passes iff |1 - dot(currentQ, referenceQ)| is at most the tolerance
0.1 AND the sphere blocks agree; for a unit reference quaternion the
antipodal current quaternion has dot exactly -1 and therefore fails the
dot part of the gate. -/
theorem claim_C4_orientation_dot_check (cur sav : Quat ℚ) (cb sb : ℤ)
    (hunit : quatDot sav sav = 1) :
    (isOrientationMatched cur sav cb sb ↔
      (|1 - quatDot cur sav| ≤ 1/10 ∧ cb = sb)) ∧
    quatDot (quatNeg sav) sav = -1 ∧
    ¬ isOrientationMatched (quatNeg sav) sav cb sb := by
  have hneg : quatDot (quatNeg sav) sav = -1 := by
    have h : quatDot (quatNeg sav) sav = -(quatDot sav sav) := by
      simp [quatDot, quatNeg]
      ring
    rw [h, hunit]
  refine ⟨Iff.rfl, hneg, ?_⟩
  intro hmat
  have h1 := hmat.1
  rw [hneg] at h1
  norm_num [ORIENTATION_TOLERANCE, abs_le] at h1

/-- C4 witness: the amended claim instantiated at the identity quaternion. -/
theorem claim_C4_orientation_dot_check_case :
    quatDot ⟨0, 0, 0, 1⟩ ⟨0, 0, 0, 1⟩ = 1 ∧
    ((isOrientationMatched ⟨0, 0, 0, 1⟩ ⟨0, 0, 0, 1⟩ 0 0 ↔
        (|1 - quatDot ⟨0, 0, 0, 1⟩ ⟨0, 0, 0, 1⟩| ≤ 1/10 ∧ (0 : ℤ) = 0)) ∧
      quatDot (quatNeg ⟨0, 0, 0, 1⟩) ⟨0, 0, 0, 1⟩ = -1 ∧
      ¬ isOrientationMatched (quatNeg ⟨0, 0, 0, 1⟩) ⟨0, 0, 0, 1⟩ 0 0) :=
  ⟨by norm_num [quatDot],
    claim_C4_orientation_dot_check ⟨0, 0, 0, 1⟩ ⟨0, 0, 0, 1⟩ 0 0 (by norm_num [quatDot])⟩

/-- C5: for every positive capacity and every push sequence, both smoothing
window implementations keep the window length at most the capacity, and
pushing capacity + 5 values leaves exactly the capacity most recent values
in push order, oldest evicted first. -/
theorem claim_C5_window_capacity_fifo {α : Type} (window : ℕ) (vs : List α)
    (hw : 0 < window) :
    (List.foldl (addMagnetometerReading window) [] vs).length ≤ window ∧
    (List.foldl (pushDirectionReading window) [] vs).length ≤ window ∧
    (vs.length = window + 5 →
      List.foldl (addMagnetometerReading window) [] vs = vs.drop 5 ∧
      List.foldl (pushDirectionReading window) [] vs = vs.drop 5) := by
  rw [foldl_addMagnetometerReading window hw vs, foldl_pushDirectionReading window vs]
  refine ⟨?_, ?_, fun h => ⟨?_, ?_⟩⟩
  · simp only [List.length_drop]
    omega
  · simp only [List.length_drop]
    omega
  · rw [h]
    congr 1
    omega
  · rw [h]
    congr 1
    omega

/-- C5 witness: capacity 3 with 8 pushes keeps the last 3 values. -/
theorem claim_C5_window_capacity_fifo_case :
    0 < 3 ∧
    ((List.foldl (addMagnetometerReading 3) ([] : List ℕ) [0, 1, 2, 3, 4, 5, 6, 7]).length ≤ 3 ∧
      (List.foldl (pushDirectionReading 3) ([] : List ℕ) [0, 1, 2, 3, 4, 5, 6, 7]).length ≤ 3 ∧
      (([0, 1, 2, 3, 4, 5, 6, 7] : List ℕ).length = 3 + 5 →
        List.foldl (addMagnetometerReading 3) [] [0, 1, 2, 3, 4, 5, 6, 7] =
          ([0, 1, 2, 3, 4, 5, 6, 7] : List ℕ).drop 5 ∧
        List.foldl (pushDirectionReading 3) [] [0, 1, 2, 3, 4, 5, 6, 7] =
          ([0, 1, 2, 3, 4, 5, 6, 7] : List ℕ).drop 5)) :=
  ⟨by decide, claim_C5_window_capacity_fifo 3 [0, 1, 2, 3, 4, 5, 6, 7] (by decide)⟩

/-- C6: on every non-empty window the moving-average smoother reports, per
component, the sum of that component over the window divided by the window
length. -/
theorem claim_C6_moving_average (readings : List (V3 ℚ)) (h : readings ≠ []) :
    (getAverageReading readings).x = (readings.map V3.x).sum / readings.length ∧
    (getAverageReading readings).y = (readings.map V3.y).sum / readings.length ∧
    (getAverageReading readings).z = (readings.map V3.z).sum / readings.length := by
  have hlen : ¬ readings.length = 0 := by
    simpa using h
  simp [getAverageReading, if_neg hlen, foldl_sum_components, h]

/-- C6 witness: the mean of two concrete readings. -/
theorem claim_C6_moving_average_case :
    (([⟨1, 2, 3⟩, ⟨3, 4, 5⟩] : List (V3 ℚ)) ≠ []) ∧
    ((getAverageReading [⟨1, 2, 3⟩, ⟨3, 4, 5⟩]).x =
        (([⟨1, 2, 3⟩, ⟨3, 4, 5⟩] : List (V3 ℚ)).map V3.x).sum /
          ([⟨1, 2, 3⟩, ⟨3, 4, 5⟩] : List (V3 ℚ)).length ∧
      (getAverageReading [⟨1, 2, 3⟩, ⟨3, 4, 5⟩]).y =
        (([⟨1, 2, 3⟩, ⟨3, 4, 5⟩] : List (V3 ℚ)).map V3.y).sum /
          ([⟨1, 2, 3⟩, ⟨3, 4, 5⟩] : List (V3 ℚ)).length ∧
      (getAverageReading [⟨1, 2, 3⟩, ⟨3, 4, 5⟩]).z =
        (([⟨1, 2, 3⟩, ⟨3, 4, 5⟩] : List (V3 ℚ)).map V3.z).sum /
          ([⟨1, 2, 3⟩, ⟨3, 4, 5⟩] : List (V3 ℚ)).length) :=
  ⟨by simp, claim_C6_moving_average [⟨1, 2, 3⟩, ⟨3, 4, 5⟩] (by simp)⟩

/-- C7: whenever a matcher decision fails, its reason list names exactly the
failed dimensions - the location tag is present iff the location gate
failed, the direction/orientation tag iff that gate failed - and a failing
match always carries at least one reason; stated for both the part_002 and
the index.tsx decision. -/
theorem claim_C7_failure_reasons (cl sl : LocationData) (cd sd : ℚ)
    (cl2 sl2 : LocationData) (co so : Quat ℚ) (cb sb : ℤ) :
    (((part002TakePhoto cl sl cd sd).ok = false ↔
        (part002TakePhoto cl sl cd sd).mismatchReasons ≠ []) ∧
      ("location" ∈ (part002TakePhoto cl sl cd sd).mismatchReasons ↔
        ¬ isLocationMatched cl sl) ∧
      ("direction" ∈ (part002TakePhoto cl sl cd sd).mismatchReasons ↔
        ¬ isDirectionMatched cd sd)) ∧
    (((indexTakePhoto cl2 sl2 co so cb sb).ok = false ↔
        (indexTakePhoto cl2 sl2 co so cb sb).mismatchReasons ≠ []) ∧
      ("location" ∈ (indexTakePhoto cl2 sl2 co so cb sb).mismatchReasons ↔
        ¬ isLocationMatched cl2 sl2) ∧
      ("orientation" ∈ (indexTakePhoto cl2 sl2 co so cb sb).mismatchReasons ↔
        ¬ isOrientationMatched co so cb sb)) := by
  constructor
  · unfold part002TakePhoto
    by_cases hl : isLocationMatched cl sl <;>
      by_cases hd : isDirectionMatched cd sd <;>
        simp [hl, hd]
  · unfold indexTakePhoto
    by_cases hl : isLocationMatched cl2 sl2 <;>
      by_cases ho : isOrientationMatched co so cb sb <;>
        simp [hl, ho]

end Dra

namespace Dra

/-- Multiplying the identity quaternion by any quaternion is that
quaternion. -/
theorem quatMul_idQuat (q : Quat ℝ) : quatMul idQuat q = q := by
  simp [quatMul, idQuat]

/-- For a positive angular velocity gx around the x axis (with gx/20 below
pi), the gyro delta rotation of the code changes the identity orientation:
the integration step is not a no-op, whatever the sample timestamps. -/
theorem gyro_step_changes_identity (gx : ℚ) (h0 : 0 < gx)
    (hpi : ((gx : ℝ)) / 20 < Real.pi) :
    quatMul idQuat (quatFromEulerXYZ (v3Cast (gyroDeltaEuler ⟨gx, 0, 0⟩))) ≠ idQuat := by
  have hx : (quatFromEulerXYZ (v3Cast (gyroDeltaEuler ⟨gx, 0, 0⟩))).x =
      Real.sin ((gx : ℝ) / 20) := by
    simp only [quatFromEulerXYZ, v3Cast, gyroDeltaEuler, UPDATE_INTERVAL]
    push_cast
    norm_num
    ring_nf
  have hsin : Real.sin ((gx : ℝ) / 20) ≠ 0 := by
    apply ne_of_gt
    apply Real.sin_pos_of_pos_of_lt_pi _ hpi
    positivity
  intro hcontr
  rw [quatMul_idQuat] at hcontr
  have hxc := congrArg Quat.x hcontr
  rw [hx] at hxc
  exact hsin (by simpa [idQuat] using hxc)

end Dra

namespace Dra

/-- C8 counterexample: at the zero vector the denominator that
computeOrientation divides by is exactly 0 - the division is unguarded and
differs from the epsilon-substituted denominator the claim asserts is
used. -/
theorem claim_C8_zero_norm_case :
    vnorm ⟨0, 0, 0⟩ = 0 ∧
    specEpsDenominator ⟨0, 0, 0⟩ = 1 / 1000000 ∧
    vnorm ⟨0, 0, 0⟩ ≠ specEpsDenominator ⟨0, 0, 0⟩ := by
  have h0 : vnorm ⟨0, 0, 0⟩ = 0 := by
    simp [vnorm]
  have h1 : specEpsDenominator ⟨0, 0, 0⟩ = 1 / 1000000 := by
    rw [specEpsDenominator, h0]
    exact max_eq_right (by norm_num)
  refine ⟨h0, h1, ?_⟩
  rw [h0, h1]
  norm_num

/-- C8 (amended): for every unit vector the normalization inside
computeOrientation returns the vector itself, so its norm is exactly 1
(within 1e-6 trivially); but at the zero vector the norm divided by is
exactly 0 - the division is unguarded, with no epsilon substitute (in JS
the components become NaN; no exception is raised). -/
theorem claim_C8_normalize (v : V3 ℝ) (h : vnorm v = 1) :
    normalizeVec v = v ∧
    vnorm (normalizeVec v) = 1 ∧
    |vnorm (normalizeVec v) - 1| ≤ 1 / 1000000 ∧
    vnorm ⟨0, 0, 0⟩ = 0 := by
  have hv : normalizeVec v = v := by
    unfold normalizeVec
    rw [h]
    simp
  refine ⟨hv, ?_, ?_, ?_⟩
  · rw [hv, h]
  · rw [hv, h]
    norm_num
  · simp [vnorm]

/-- C8 witness: the unit vector (1, 0, 0). -/
theorem claim_C8_normalize_case :
    vnorm ⟨1, 0, 0⟩ = 1 ∧
    (normalizeVec ⟨1, 0, 0⟩ = ⟨1, 0, 0⟩ ∧
      vnorm (normalizeVec ⟨1, 0, 0⟩) = 1 ∧
      |vnorm (normalizeVec ⟨1, 0, 0⟩) - 1| ≤ 1 / 1000000 ∧
      vnorm ⟨0, 0, 0⟩ = 0) :=
  ⟨by simp [vnorm], claim_C8_normalize ⟨1, 0, 0⟩ (by simp [vnorm])⟩

/-- C9 counterexample: with angular velocity (1, 0, 0) and duplicate
consecutive sample timestamps, the claimed timestamp-based no-op would
leave the orientation unchanged, but the code's delta Euler angles are the
timestamp-independent (0.1, 0, 0) and the integration step changes the
identity orientation. -/
theorem claim_C9_fixed_dt_case :
    gyroDeltaEuler ⟨1, 0, 0⟩ = ⟨1/10, 0, 0⟩ ∧
    specGyroDeltaEuler ⟨1, 0, 0⟩ 5000 5000 = ⟨0, 0, 0⟩ ∧
    gyroDeltaEuler ⟨1, 0, 0⟩ ≠ specGyroDeltaEuler ⟨1, 0, 0⟩ 5000 5000 ∧
    quatMul idQuat (quatFromEulerXYZ (v3Cast (gyroDeltaEuler ⟨1, 0, 0⟩))) ≠ idQuat := by
  have h1 : gyroDeltaEuler ⟨1, 0, 0⟩ = ⟨1/10, 0, 0⟩ := by
    norm_num [gyroDeltaEuler, UPDATE_INTERVAL, V3.mk.injEq]
  have h2 : specGyroDeltaEuler ⟨1, 0, 0⟩ 5000 5000 = ⟨0, 0, 0⟩ := by
    norm_num [specGyroDeltaEuler]
  refine ⟨h1, h2, ?_, ?_⟩
  · rw [h1, h2]
    intro hcontr
    rw [V3.mk.injEq] at hcontr
    norm_num at hcontr
  · exact gyro_step_changes_identity 1 (by norm_num)
      (lt_trans (by norm_num) Real.pi_gt_three)

/-- C9 (amended): the gyroscope integration step uses the fixed configured
interval UPDATE_INTERVAL / 1000 = 0.1 s as dt - the sample timestamps never
enter the computation and there is no dt <= 0 no-op guard - so for any
positive angular velocity gx (with gx/20 below pi) the step changes the
identity orientation, even though the spec-modelled timestamp-based step
with duplicate timestamps is a no-op. -/
theorem claim_C9_gyro_integration (gx tMillis : ℚ) (h0 : 0 < gx)
    (hpi : ((gx : ℝ)) / 20 < Real.pi) :
    gyroDeltaEuler ⟨gx, 0, 0⟩ = ⟨gx / 10, 0, 0⟩ ∧
    specGyroDeltaEuler ⟨gx, 0, 0⟩ tMillis tMillis = ⟨0, 0, 0⟩ ∧
    quatMul idQuat (quatFromEulerXYZ (v3Cast (gyroDeltaEuler ⟨gx, 0, 0⟩))) ≠ idQuat := by
  refine ⟨?_, ?_, gyro_step_changes_identity gx h0 hpi⟩
  · simp only [gyroDeltaEuler, UPDATE_INTERVAL, V3.mk.injEq]
    refine ⟨by ring, by ring, by ring⟩
  · simp [specGyroDeltaEuler]

/-- C9 witness: angular velocity 1 rad/s, coincident timestamps. -/
theorem claim_C9_gyro_integration_case :
    (0 < (1 : ℚ) ∧ (((1 : ℚ) : ℝ)) / 20 < Real.pi) ∧
    (gyroDeltaEuler ⟨1, 0, 0⟩ = ⟨1 / 10, 0, 0⟩ ∧
      specGyroDeltaEuler ⟨1, 0, 0⟩ 5000 5000 = ⟨0, 0, 0⟩ ∧
      quatMul idQuat (quatFromEulerXYZ (v3Cast (gyroDeltaEuler ⟨1, 0, 0⟩))) ≠ idQuat) :=
  ⟨⟨by norm_num, lt_trans (by norm_num) Real.pi_gt_three⟩,
    claim_C9_gyro_integration 1 5000 (by norm_num)
      (lt_trans (by norm_num) Real.pi_gt_three)⟩

/-- C10: pointing straight up (x = 0, y = 0, z positive) the mapped
elevation is exactly 180, the vertical index is floor(180 / 45) = 4 and the
emitted label is letter code 65 (A) with number 5 - outside the 1..4 range
of the 4 x 4 grid, so the output label set is not confined to
A..D x 1..4. -/
theorem claim_C10_label_overflow (z : ℝ) (hz : 0 < z) :
    calculateSphereBlockLabelled 0 0 z = ⟨65, 5⟩ ∧
    ¬ (1 ≤ (calculateSphereBlockLabelled 0 0 z).number ∧
        (calculateSphereBlockLabelled 0 0 z).number ≤ 4) := by
  have hpi : Real.pi ≠ 0 := Real.pi_ne_zero
  have hsq : Real.sqrt ((0 : ℝ) * 0 + 0 * 0) = 0 := by
    simp
  have hzero : ((⟨0, 0⟩ : ℂ)) = 0 := by
    apply Complex.ext <;> simp
  have htheta : atan2 0 0 = 0 := by
    rw [atan2, hzero, Complex.arg_zero]
  have hphi : atan2 z 0 = Real.pi / 2 := by
    rw [atan2]
    exact Complex.arg_eq_pi_div_two_iff.mpr ⟨rfl, hz⟩
  have haz : jsMod ((0 : ℝ) * 180 / Real.pi + 360) 360 = 0 := by
    rw [jsMod]
    norm_num [Int.floor_one]
  have hel : (Real.pi / 2 * 180 / Real.pi + 90) / (180 / ((SPHERE_SEGMENTS : ℕ) : ℝ)) =
      ((4 : ℤ) : ℝ) := by
    have h90 : Real.pi / 2 * 180 / Real.pi = 90 := by
      field_simp
      ring
    rw [h90, SPHERE_SEGMENTS]
    norm_num
  have hmain : calculateSphereBlockLabelled 0 0 z = ⟨65, 5⟩ := by
    simp only [calculateSphereBlockLabelled, hsq, htheta, hphi, haz]
    rw [hel, Int.floor_intCast]
    norm_num [SphereBlockLabel.mk.injEq, Int.floor_zero]
  refine ⟨hmain, ?_⟩
  rw [hmain]
  decide

/-- C10 witness: the input (0, 0, 1). -/
theorem claim_C10_label_overflow_case :
    (0 : ℝ) < 1 ∧
    (calculateSphereBlockLabelled 0 0 1 = ⟨65, 5⟩ ∧
      ¬ (1 ≤ (calculateSphereBlockLabelled 0 0 1).number ∧
          (calculateSphereBlockLabelled 0 0 1).number ≤ 4)) :=
  ⟨zero_lt_one, claim_C10_label_overflow 1 zero_lt_one⟩

end Dra
